import Mathlib

/-!
Verification development for the freeflies repository: a shallow embedding of
the capture/transcribe pipeline (MeetBot, AudioRecorder, Transcriber and the
app-level orchestration in app.py), together with theorems settling the
behavioural claims about it.

Conventions:
- Python floats are modelled as rationals (the code performs only exact
  arithmetic on the values the claims exercise).
- Fallible Python code that `return`s on a caught exception is modelled as a
  total function returning the caught-path value; external capabilities
  (the HuggingFace ASR pipeline, browser automation, the tail VAD checks that
  depend on numpy version) are oracle parameters.
-/

namespace Utils

/-- `[a-z]` character class of the regex in `src/utils.py`. -/
def isLowerAlpha (c : Char) : Bool := 'a' ≤ c && c ≤ 'z'

/-- Strip a literal prefix (one regex literal character after another),
returning the rest of the input if every character matched. -/
def stripLit : List Char → List Char → Option (List Char)
  | [], l => some l
  | _ :: _, [] => none
  | p :: ps, c :: cs => if c = p then stripLit ps cs else none

/-- Strip exactly `n` characters of class `[a-z]` (the `[a-z]{n}` atoms). -/
def stripAlpha : Nat → List Char → Option (List Char)
  | 0, l => some l
  | _ + 1, [] => none
  | n + 1, c :: cs => if isLowerAlpha c then stripAlpha n cs else none

/-- Regex `.` semantics with no DOTALL flag: any character except a newline,
so `.*` matches exactly the newline-free strings. -/
def dotStar (l : List Char) : Bool := l.all (fun c => c ≠ '\n')

/-- The tail `\??.*` of the pattern: a greedy optional `'?'` followed by `.*`.
(The alternative branches only differ in whether the leading `'?'`, itself
matchable by `.`, is consumed by `\??` or by `.*`.) -/
def optQThenDotStar (l : List Char) : Bool :=
  (match l with
    | '?' :: t => dotStar t
    | _ => false) || dotStar l

/-- Everything of the pattern
`https?://meet\.google\.com/[a-z]{3}-[a-z]{4}-[a-z]{3}\??.*` before the tail
`\??.*`: on success returns the input's remaining characters.  The optional
`s` of `https?` is deterministic because the following literal is `:`. -/
def matchMeetPrefix (l : List Char) : Option (List Char) :=
  match stripLit "http".toList l with
  | none => none
  | some r1 =>
    let r2 := match r1 with
      | 's' :: t => t
      | t => t
    match stripLit "://meet.google.com/".toList r2 with
    | none => none
    | some r3 =>
      match stripAlpha 3 r3 with
      | none => none
      | some r4 =>
        match r4 with
        | '-' :: r5 =>
          match stripAlpha 4 r5 with
          | none => none
          | some r6 =>
            match r6 with
            | '-' :: r7 => stripAlpha 3 r7
            | _ => none
        | _ => none

/-- `re.fullmatch` of the whole pattern of `validate_meet_url`. -/
def matchMeetRegex (l : List Char) : Bool :=
  match matchMeetPrefix l with
  | none => false
  | some rest => optQThenDotStar rest

/-- `src/utils.py` `validate_meet_url`: falsy-guard on the empty string, then
`re.fullmatch` of the Meet-URL pattern. -/
def validate_meet_url (url : String) : Bool :=
  if url = "" then false else matchMeetRegex url.toList

/-- The URL shape stated by the claim (spec-following definition, for
comparison with the code): the host/code prefix, then either nothing or a
`'?'` followed by an arbitrary query suffix. -/
def claimed_meet_url_shape (url : String) : Bool :=
  if url = "" then false else
  match matchMeetPrefix url.toList with
  | none => false
  | some rest =>
    match rest with
    | [] => true
    | '?' :: _ => true
    | _ => false

/-- The amended URL shape: the host/code prefix followed by any (possibly
empty) suffix containing no newline — no `'?'` is required before the
suffix. -/
def amended_meet_url_shape (url : String) : Bool :=
  if url = "" then false else
  match matchMeetPrefix url.toList with
  | none => false
  | some rest => dotStar rest

theorem optQThenDotStar_eq_dotStar (l : List Char) :
    optQThenDotStar l = dotStar l := by
  cases l with
  | nil => rfl
  | cons c t =>
    by_cases h : c = '?'
    · subst h
      simp [optQThenDotStar, dotStar]
    · simp [optQThenDotStar, dotStar]
      cases hc : (c = '?' : Bool) <;> simp_all [optQThenDotStar]

end Utils

namespace MeetBot

/-- Browser-automation calls `leave_meeting` may issue
(`src/src/bot/meet_bot.py`). -/
inductive AutoCall
  | selectLeaveButton
  | clickLeaveButton
  | closePage
  | stopBrowser
deriving DecidableEq, Repr

/-- `MeetBot` instance state: the `is_joined` flag and the optional CDP page
and browser handles (handles abstracted to `Unit`). -/
structure State where
  is_joined : Bool
  page : Option Unit
  browser : Option Unit
deriving DecidableEq, Repr

/-- Whether the in-call automation of `_leave_meeting_async` (selecting and
clicking the leave button on the live page) succeeds or raises. -/
structure LeaveEnv where
  select_ok : Bool
deriving DecidableEq, Repr

/-- Outcome of `leave_meeting`: the returned boolean, the bot state
afterwards, and the automation calls issued. -/
structure LeaveResult where
  ok : Bool
  state : State
  calls : List AutoCall
deriving DecidableEq, Repr

/-- `MeetBot.leave_meeting` / `_leave_meeting_async`: the async body first
asserts `self.page is not None` — with no page the `AssertionError` is caught
by `leave_meeting`'s `except`, which returns `False` having touched nothing.
With a page, the leave button is selected and clicked (raising covered by
`env.select_ok = false`, again caught and returned as `False`), then
`cleanup` closes the page and stops the browser, and `is_joined` is set to
`False` before returning `True`. -/
def leave_meeting (env : LeaveEnv) (b : State) : LeaveResult :=
  match b.page with
  | none => ⟨false, b, []⟩
  | some _ =>
    if env.select_ok then
      ⟨true, ⟨false, none, none⟩,
        [AutoCall.selectLeaveButton, AutoCall.clickLeaveButton, AutoCall.closePage]
          ++ (if b.browser.isSome then [AutoCall.stopBrowser] else [])⟩
    else
      ⟨false, b, [AutoCall.selectLeaveButton]⟩

end MeetBot

/-- Claim C5: calling `leave_meeting` on an idle controller (`is_joined`
false, no page — the only idle shape the code can reach, since every failed
or finished join runs `cleanup`, which clears the page) returns `False`,
issues no automation calls, and leaves the bot state unchanged: the page
assertion fails before any page interaction, and the `AssertionError` is
caught. -/
theorem leave_meeting_idle_noop (env : MeetBot.LeaveEnv) (b : MeetBot.State)
    (_h1 : b.is_joined = false) (h2 : b.page = none) :
    MeetBot.leave_meeting env b = ⟨false, b, []⟩ := by
  unfold MeetBot.leave_meeting
  rw [h2]

theorem leave_meeting_idle_noop_witness :
    (⟨false, none, none⟩ : MeetBot.State).is_joined = false ∧
    (⟨false, none, none⟩ : MeetBot.State).page = none ∧
    MeetBot.leave_meeting ⟨true⟩ ⟨false, none, none⟩ = ⟨false, ⟨false, none, none⟩, []⟩ :=
  ⟨rfl, rfl, leave_meeting_idle_noop ⟨true⟩ ⟨false, none, none⟩ rfl rfl⟩

namespace AudioRecorder

/-- Seconds per chunk (`chunk_duration = 5.0` in
`src/src/recording/audio_recorder.py`). -/
def chunk_duration : ℚ := 5

/-- `AudioRecorder` instance state: the recording flag, start timestamp,
output path, the FIFO chunk queue, the durable sample accumulation
(`audio_data`), and the dequeue sequence counter. -/
structure State where
  is_recording : Bool
  start_time : Option ℚ
  output_file : Option String
  audio_queue : List (List ℚ)
  audio_data : List (List ℚ)
  chunk_counter : Nat
deriving DecidableEq, Repr

/-- `AudioRecorder.is_queue_empty`: `qsize() == 0`. -/
def is_queue_empty (rs : State) : Bool := rs.audio_queue.isEmpty

/-- `AudioRecorder.get_audio_chunk`: non-blocking pop; on a non-empty queue
returns the front chunk paired with `chunk_counter * chunk_duration` and
increments the counter, on an empty queue returns `None`
(`Empty` caught). -/
def get_audio_chunk (rs : State) : Option (List ℚ × ℚ) × State :=
  match rs.audio_queue with
  | [] => (none, rs)
  | c :: rest =>
    (some (c, rs.chunk_counter * chunk_duration),
      { rs with audio_queue := rest, chunk_counter := rs.chunk_counter + 1 })

/-- `AudioRecorder.cleanup`: clears the sample accumulation, resets the
chunk counter, and drains the queue. -/
def cleanup (rs : State) : State :=
  { rs with audio_data := [], chunk_counter := 0, audio_queue := [] }

/-- Result of `AudioRecorder.stop_recording`: the returned value
(`output_file` path or `None`), the samples written to the file (the
concatenation of `audio_data`) when a file was written, and the recorder
state afterwards. -/
structure StopResult where
  result : Option String
  written : Option (List ℚ)
  state : State
deriving DecidableEq, Repr

/-- `AudioRecorder.stop_recording`: raises (caught, returning `None`) if not
recording; otherwise clears `is_recording` and `start_time`, joins the
recording thread, then raises (caught, returning `None`) if no audio was
ever accumulated or no output path is set — and only on the surviving path
concatenates `audio_data`, writes it to `output_file`, runs `cleanup`, and
returns the path.  The `except` of the source merely logs and returns
`None`: no cleanup happens on the failure paths. -/
def stop_recording (rs : State) : StopResult :=
  if rs.is_recording then
    let rs1 : State := { rs with is_recording := false, start_time := none }
    if rs1.audio_data.isEmpty || rs1.output_file.isNone then
      ⟨none, none, rs1⟩
    else
      ⟨rs1.output_file, some rs1.audio_data.flatten, cleanup rs1⟩
  else
    ⟨none, none, rs⟩

end AudioRecorder

/-- Claim C4 counterexample: stopping a recorder that is recording but never
accumulated audio (`audio_data = []`, one chunk still queued, counter at 7)
returns `None` (failure) — but the queue is NOT drained, the counter NOT
reset: the claimed "cleanup on every return path" is false, `cleanup` runs
only after a successful file write. -/
theorem stop_recording_failure_skips_cleanup :
    (AudioRecorder.stop_recording ⟨true, some 10, some "f.wav", [[9]], [], 7⟩).result = none ∧
    (AudioRecorder.stop_recording ⟨true, some 10, some "f.wav", [[9]], [], 7⟩).state.audio_queue = [[9]] ∧
    (AudioRecorder.stop_recording ⟨true, some 10, some "f.wav", [[9]], [], 7⟩).state.chunk_counter = 7 := by
  refine ⟨rfl, ?_, rfl⟩
  rfl

/-- Claim C4 (amended): `stop_recording` returns failure (`None`) whenever no
audio was ever accumulated, but on such failure returns no internal cleanup
is performed — the chunk queue, the sample accumulation and the sequence
counter keep their values; `cleanup` (queue drained, accumulation cleared,
counter reset) runs only on the success path. -/
theorem stop_recording_no_audio_fails_without_cleanup
    (rs : AudioRecorder.State) (h : rs.audio_data = []) :
    (AudioRecorder.stop_recording rs).result = none ∧
    (AudioRecorder.stop_recording rs).state.audio_queue = rs.audio_queue ∧
    (AudioRecorder.stop_recording rs).state.audio_data = rs.audio_data ∧
    (AudioRecorder.stop_recording rs).state.chunk_counter = rs.chunk_counter := by
  unfold AudioRecorder.stop_recording
  cases hrec : rs.is_recording <;> simp [hrec, h]

theorem stop_recording_no_audio_fails_without_cleanup_witness :
    (⟨true, some 10, some "f.wav", [[9]], [], 7⟩ : AudioRecorder.State).audio_data = [] ∧
    ((AudioRecorder.stop_recording ⟨true, some 10, some "f.wav", [[9]], [], 7⟩).result = none ∧
     (AudioRecorder.stop_recording ⟨true, some 10, some "f.wav", [[9]], [], 7⟩).state.audio_queue
        = (⟨true, some 10, some "f.wav", [[9]], [], 7⟩ : AudioRecorder.State).audio_queue ∧
     (AudioRecorder.stop_recording ⟨true, some 10, some "f.wav", [[9]], [], 7⟩).state.audio_data
        = (⟨true, some 10, some "f.wav", [[9]], [], 7⟩ : AudioRecorder.State).audio_data ∧
     (AudioRecorder.stop_recording ⟨true, some 10, some "f.wav", [[9]], [], 7⟩).state.chunk_counter
        = (⟨true, some 10, some "f.wav", [[9]], [], 7⟩ : AudioRecorder.State).chunk_counter) :=
  ⟨rfl, stop_recording_no_audio_fails_without_cleanup _ rfl⟩

namespace Transcriber

/-- `SAMPLE_RATE` from `src/src/config.py`. -/
def sampleRate : ℚ := 16000

/-- `VAD_MIN_AUDIO_LENGTH` (seconds). -/
def vadMinAudioLength : ℚ := 2

/-- `VAD_ENERGY_THRESHOLD`. -/
def vadEnergyThreshold : ℚ := 1 / 100

/-- `Transcriber` loading state: the ASR `pipeline` handle (abstracted) and
the `is_loaded` flag; the background `load_worker` sets `pipeline` first and
`is_loaded` last, so before loading completes `is_loaded` is `false`. -/
structure State where
  pipeline : Option Unit
  is_loaded : Bool
deriving DecidableEq, Repr

/-- Sum of squares of the samples (`np.mean(audio**2)`'s numerator). -/
def sumSq (l : List ℚ) : ℚ := (l.map (fun x => x * x)).sum

/-- `np.mean(audio**2)`; for the empty list the code never reaches this
(the minimum-length gate fires first), so the `/0 = 0` convention of `ℚ` is
unobservable. -/
def meanSq (l : List ℚ) : ℚ := sumSq l / l.length

/-- `np.max(np.abs(audio))`, as a fold with lower bound `0` — equal to the
numpy maximum on the non-empty lists that reach it, since `|x| ≥ 0`. -/
def maxAbs (l : List ℚ) : ℚ := (l.map (fun x => |x|)).foldl max 0

/-- `Transcriber._prepare_audio`: the audio is already float mono, so the
body reduces to the normalisation `audio / (np.max(np.abs(audio)) + 1e-8)`. -/
def prepare_audio (audio : List ℚ) : List ℚ :=
  audio.map (fun x => x / (maxAbs audio + 1 / 100000000))

/-- `Transcriber._has_voice_activity`: the energy gate
`sqrt(mean(audio²)) < VAD_ENERGY_THRESHOLD` rejects immediately (compared
here on squares — `sqrt` is monotone on the nonnegatives).  The later
checks (zero-crossing rate via `np.diff(np.signbit(...))`, silence ratio,
FFT spectral centroid) are numpy-version-dependent and abstracted as the
oracle `vadRest`; no claim exercises them. -/
def has_voice_activity (vadRest : List ℚ → Bool) (audio : List ℚ) : Bool :=
  if meanSq audio < vadEnergyThreshold * vadEnergyThreshold then false
  else vadRest audio

/-- Samples counted as speech by the post-VAD gate:
`np.abs(audio) > VAD_ENERGY_THRESHOLD * 0.5`. -/
def speechSamples (l : List ℚ) : Nat :=
  (l.filter (fun x => vadEnergyThreshold / 2 < |x|)).length

/-- `int(VAD_MIN_SPEECH_DURATION * SAMPLE_RATE)` = `int(0.5 * 16000)`. -/
def minSpeechSamples : Nat := 8000

/-- `Transcriber.transcribe_chunk` (the one-parameter function of
`src/src/transcription/transcriber.py`): returns `None` unless the pipeline
is loaded; gates on minimum duration, voice activity, and minimum speech
content before invoking the ASR pipeline; strips, length-checks and
hallucination-filters the ASR text; the surrounding `try`/`except` turns any
raise (ASR failure, non-string text — the oracle's `.error`) into `None`.
The second component records whether the ASR pipeline was invoked.
`detectHall` abstracts `_detect_hallucination`, a total boolean function
(its own `except` returns `False`) whose internals no claim touches. -/
def transcribe_chunk (ts : State) (vadRest : List ℚ → Bool)
    (detectHall : String → Bool) (asr : List ℚ → Except Unit String)
    (audio_chunk : List ℚ) : Option String × Bool :=
  if ts.pipeline.isNone || !ts.is_loaded then (none, false)
  else if (audio_chunk.length : ℚ) / sampleRate < vadMinAudioLength then (none, false)
  else
    let audio := prepare_audio audio_chunk
    if !has_voice_activity vadRest audio then (none, false)
    else if speechSamples audio < minSpeechSamples then (none, false)
    else
      match asr audio with
      | .error _ => (none, true)
      | .ok text =>
        let t := text.trim
        if t = "" || t.length < 3 then (none, true)
        else if detectHall t then (none, true)
        else if t ≠ "" && t.length > 0 then (some t, true)
        else (none, true)

theorem sumSq_replicate_zero (n : Nat) : sumSq (List.replicate n (0 : ℚ)) = 0 := by
  simp [sumSq, List.map_replicate]

theorem prepare_audio_replicate_zero (n : Nat) :
    prepare_audio (List.replicate n (0 : ℚ)) = List.replicate n (0 : ℚ) := by
  simp [prepare_audio, List.map_replicate]

end Transcriber

/-- Claim C7: a silent chunk — all-zero samples, any length — always yields
`None` (no segments, the value callers treat as "nothing transcribed") and
never invokes the ASR pipeline, whatever the transcriber's loading state and
whatever the VAD-tail, hallucination and ASR oracles do: short silent chunks
fall to the `VAD_MIN_AUDIO_LENGTH` gate and long ones to the VAD energy gate
(RMS 0 < 0.01), both ahead of the ASR call; the function is total, so
silence never raises. -/
theorem transcribe_chunk_silence_yields_none_no_asr
    (ts : Transcriber.State) (vadRest : List ℚ → Bool)
    (detectHall : String → Bool) (asr : List ℚ → Except Unit String) (n : Nat) :
    Transcriber.transcribe_chunk ts vadRest detectHall asr
      (List.replicate n (0 : ℚ)) = (none, false) := by
  unfold Transcriber.transcribe_chunk
  simp only [List.length_replicate]
  by_cases hload : (ts.pipeline.isNone || !ts.is_loaded : Bool) = true
  · simp [hload]
  · simp only [hload]
    by_cases hlen : (n : ℚ) / Transcriber.sampleRate < Transcriber.vadMinAudioLength
    · simp [hlen]
    · have hvad : Transcriber.has_voice_activity vadRest
          (Transcriber.prepare_audio (List.replicate n (0 : ℚ))) = false := by
        unfold Transcriber.has_voice_activity
        rw [Transcriber.prepare_audio_replicate_zero]
        have hms : Transcriber.meanSq (List.replicate n (0 : ℚ)) = 0 := by
          simp [Transcriber.meanSq, Transcriber.sumSq_replicate_zero]
        rw [hms]
        norm_num [Transcriber.vadEnergyThreshold]
      simp [hlen, hvad]

namespace App

/-- Orchestrator-level actions `start_recording` (`app.py`) can take. -/
inductive OrchAction
  | joinCall
  | audioStartCall
  | leaveCall
  | spawnWorker
deriving DecidableEq, Repr

/-- Outcomes of the two fallible calls `start_recording` makes; both return
booleans (they catch their own exceptions internally). -/
structure StartEnv where
  join_ok : Bool
  audio_ok : Bool
deriving DecidableEq, Repr

/-- Result of `app.start_recording`: the returned boolean, the calls made,
the bot's `is_joined` flag afterwards, and `st.session_state.recording_active`. -/
structure StartResult where
  ok : Bool
  actions : List OrchAction
  bot_joined : Bool
  recording_active : Bool
deriving DecidableEq, Repr

/-- `app.start_recording(meet_url)`: clears the transcription, calls
`meet_bot.join_meeting` (returning `False` on its failure), then
`audio_recorder.start_recording` (returning `False` on its failure — with no
further call in between), then sets `recording_active` and spawns the
background transcription thread.  `bot_joined0` is the bot's `is_joined`
flag before the call (unchanged by a failed join). -/
def start_recording (env : StartEnv) (bot_joined0 : Bool) : StartResult :=
  if !env.join_ok then
    ⟨false, [OrchAction.joinCall], bot_joined0, false⟩
  else if !env.audio_ok then
    ⟨false, [OrchAction.joinCall, OrchAction.audioStartCall], true, false⟩
  else
    ⟨true, [OrchAction.joinCall, OrchAction.audioStartCall, OrchAction.spawnWorker],
      true, true⟩

/-- A sealed meeting record as `app.stop_recording` builds it: `start_time`
(read from the recorder before stopping it), `end_time` (`time.time()`),
the accumulated transcription, and the audio-file reference. -/
structure Meeting where
  start_time : Option ℚ
  end_time : ℚ
  transcription : List String
  audio_file : Option String
deriving DecidableEq, Repr

/-- Result of `app.stop_recording`: the returned boolean, the meeting
history afterwards, and the recorder and bot states afterwards. -/
structure AppStopResult where
  ok : Bool
  history : List Meeting
  recorder : AudioRecorder.State
  bot : MeetBot.State
  leave_ok : Bool
deriving Repr

/-- `app.stop_recording`: clears `recording_active`, reads the recorder's
`start_time`, calls `audio_recorder.stop_recording` (total — it catches its
own exceptions and returns `None`), calls `meet_bot.leave_meeting` (total —
likewise returns `False`), waits for the transcription thread with a bounded
join, builds the meeting record and appends it to the history, returning
`True`.  No call in the `try` block raises, so the `except` path that would
skip sealing is dead. -/
def stop_recording (rs : AudioRecorder.State) (bot : MeetBot.State)
    (env : MeetBot.LeaveEnv) (transcription : List String)
    (history : List Meeting) (now : ℚ) : AppStopResult :=
  let start := rs.start_time
  let stopRes := AudioRecorder.stop_recording rs
  let leaveRes := MeetBot.leave_meeting env bot
  let m : Meeting := ⟨start, now, transcription, stopRes.result⟩
  ⟨true, history ++ [m], stopRes.state, leaveRes.state, leaveRes.ok⟩

end App

/-- Claim C1 counterexample: with a successful join and a failed audio-capture
start, `app.start_recording` returns `False` without ever calling
`leave_meeting` — and the bot is still joined — contradicting the claim that
the orchestrator calls `Leave` before returning failure. -/
theorem start_recording_audio_failure_leave_not_called :
    (App.start_recording ⟨true, false⟩ false).ok = false ∧
    App.OrchAction.leaveCall ∉ (App.start_recording ⟨true, false⟩ false).actions ∧
    (App.start_recording ⟨true, false⟩ false).bot_joined = true := by
  refine ⟨rfl, ?_, rfl⟩
  decide

/-- Claim C1 (amended): when the join succeeds but starting audio capture
fails, `app.start_recording` returns failure WITHOUT calling the session
controller's `leave_meeting` — the joined meeting connection is left open
(`is_joined` stays `true`) and recording is not activated. -/
theorem start_recording_audio_failure_returns_without_leave
    (env : App.StartEnv) (bot_joined0 : Bool)
    (h1 : env.join_ok = true) (h2 : env.audio_ok = false) :
    (App.start_recording env bot_joined0).ok = false ∧
    App.OrchAction.leaveCall ∉ (App.start_recording env bot_joined0).actions ∧
    (App.start_recording env bot_joined0).bot_joined = true ∧
    (App.start_recording env bot_joined0).recording_active = false := by
  have hval : App.start_recording env bot_joined0
      = ⟨false, [App.OrchAction.joinCall, App.OrchAction.audioStartCall], true, false⟩ := by
    unfold App.start_recording
    rw [h1, h2]
    simp
  rw [hval]
  refine ⟨rfl, ?_, rfl, rfl⟩
  decide

theorem start_recording_audio_failure_returns_without_leave_witness :
    (⟨true, false⟩ : App.StartEnv).join_ok = true ∧
    (⟨true, false⟩ : App.StartEnv).audio_ok = false ∧
    ((App.start_recording ⟨true, false⟩ true).ok = false ∧
     App.OrchAction.leaveCall ∉ (App.start_recording ⟨true, false⟩ true).actions ∧
     (App.start_recording ⟨true, false⟩ true).bot_joined = true ∧
     (App.start_recording ⟨true, false⟩ true).recording_active = false) :=
  ⟨rfl, rfl, start_recording_audio_failure_returns_without_leave ⟨true, false⟩ true rfl rfl⟩

/-- Claim C8: `app.stop_recording` always appends the sealed meeting record —
the recorder's pre-stop `start_time`, the end time, the accumulated
transcription and the audio-file reference — to the in-memory history and
returns `True`, even when audio persistence returned failure (`None`) and
the leave step failed (`leave_meeting` catches its own exceptions and
returns `False` rather than re-raising, so sealing still happens). -/
theorem stop_session_always_seals_history
    (rs : AudioRecorder.State) (bot : MeetBot.State) (env : MeetBot.LeaveEnv)
    (transcription : List String) (history : List App.Meeting) (now : ℚ)
    (h1 : (AudioRecorder.stop_recording rs).result = none)
    (h2 : (MeetBot.leave_meeting env bot).ok = false) :
    (App.stop_recording rs bot env transcription history now).ok = true ∧
    (App.stop_recording rs bot env transcription history now).leave_ok = false ∧
    (App.stop_recording rs bot env transcription history now).history
      = history ++ [⟨rs.start_time, now, transcription, none⟩] := by
  refine ⟨rfl, ?_, ?_⟩ <;> simp [App.stop_recording, h1, h2]

theorem stop_session_always_seals_history_witness :
    (AudioRecorder.stop_recording ⟨false, none, none, [], [], 0⟩).result = none ∧
    (MeetBot.leave_meeting ⟨true⟩ ⟨false, none, none⟩).ok = false ∧
    ((App.stop_recording ⟨false, none, none, [], [], 0⟩ ⟨false, none, none⟩ ⟨true⟩
        ["hello"] [] 42).ok = true ∧
     (App.stop_recording ⟨false, none, none, [], [], 0⟩ ⟨false, none, none⟩ ⟨true⟩
        ["hello"] [] 42).leave_ok = false ∧
     (App.stop_recording ⟨false, none, none, [], [], 0⟩ ⟨false, none, none⟩ ⟨true⟩
        ["hello"] [] 42).history = [] ++ [⟨(⟨false, none, none, [], [], 0⟩ :
          AudioRecorder.State).start_time, 42, ["hello"], none⟩]) :=
  ⟨rfl, rfl, stop_session_always_seals_history _ _ _ _ _ _ rfl rfl⟩

namespace App

/-- Positional parameters of `Transcriber.transcribe_chunk` as defined in
`src/src/transcription/transcriber.py`: `(self, audio_chunk)`. -/
def transcribe_chunk_positional_params : Nat := 2

/-- Positional arguments of the call
`st.session_state.transcriber.transcribe_chunk(audio_chunk, time_offset)` in
`app.py`'s `background_transcription`: the bound `self` plus two. -/
def background_call_positional_args : Nat := 3

/-- Whether that call binds: a Python `def` with no defaults and no varargs
accepts exactly as many positional arguments as it has parameters; otherwise
the call raises `TypeError` before the body runs. -/
def python_call_binds : Bool :=
  background_call_positional_args == transcribe_chunk_positional_params

/-- The transcriber call as `background_transcription` performs it:
`.error` models the `TypeError` raised at argument binding
(`python_call_binds = false`), thrown before `transcribe_chunk`'s own
`try`/`except` can run.  The `.ok` branch (what a successfully bound call
would return) is unreachable. -/
def call_transcribe_chunk (_audio_chunk : List ℚ) (_time_offset : ℚ) :
    Except Unit (List String) :=
  if python_call_binds then .ok [] else .error ()

/-- Status of the background transcription thread. -/
inductive WorkerStatus
  | running
  | finished
  | aborted
deriving DecidableEq, Repr

/-- State shared by the worker thread and the foreground stop sequence:
`st.session_state.recording_active`, the recorder, the accumulated
transcription list, the chunks the worker has dequeued so far, and the
worker's status. -/
structure PipelineState where
  recording_active : Bool
  recorder : AudioRecorder.State
  transcription : List String
  dequeued : List (List ℚ)
  worker : WorkerStatus
deriving DecidableEq, Repr

/-- One iteration of `background_transcription`'s loop: while
`recording_active or not is_queue_empty()`, poll `get_audio_chunk` (sleeping
on `None`); on a chunk, call the transcriber — the call raises `TypeError`
(arity mismatch), the surrounding `except` catches it and the loop exits
(`aborted`); had the call bound, a falsy result would `continue` and a
non-empty one would extend the transcription.  When the loop condition
fails the thread finishes (graceful exit). -/
def worker_poll (ps : PipelineState) : PipelineState :=
  match ps.worker with
  | WorkerStatus.running =>
    if ps.recording_active || !AudioRecorder.is_queue_empty ps.recorder then
      match AudioRecorder.get_audio_chunk ps.recorder with
      | (none, rs1) => { ps with recorder := rs1 }
      | (some (c, off), rs1) =>
        let ps1 := { ps with recorder := rs1, dequeued := ps.dequeued ++ [c] }
        match call_transcribe_chunk c off with
        | .error _ => { ps1 with worker := WorkerStatus.aborted }
        | .ok results =>
          if results.isEmpty then ps1
          else { ps1 with transcription := ps1.transcription ++ results }
    else { ps with worker := WorkerStatus.finished }
  | _ => ps

/-- The foreground part of `app.stop_recording` that touches the shared
capture state, run as one step of the interleaving: clears
`recording_active`, then runs `audio_recorder.stop_recording` — whose
success path ends in `cleanup()`, draining the chunk queue.  (The subsequent
leave call, bounded thread join and history append touch neither the queue
nor the worker loop's condition.) -/
def stop_event (ps : PipelineState) : PipelineState :=
  { ps with recording_active := false,
            recorder := (AudioRecorder.stop_recording ps.recorder).state }

/-- A concurrency event: one worker-loop iteration or the foreground stop
sequence. -/
inductive Ev
  | worker
  | stop
deriving DecidableEq, Repr

/-- Run a schedule (an interleaving of the two threads' steps). -/
def run_events : List Ev → PipelineState → PipelineState
  | [], ps => ps
  | e :: es, ps =>
    run_events es (match e with
      | Ev.worker => worker_poll ps
      | Ev.stop => stop_event ps)

end App

/-- Claim C2: in the valid schedule where `stop_recording` runs while the
worker is in its 2-second poll sleep (drain time well under the 15-second
abandonment timeout), the three enqueued chunks are all discarded:
`AudioRecorder.stop_recording`'s cleanup drains the queue, so the worker's
next poll finds capture inactive and the queue empty and exits having
dequeued and transcribed nothing — the stop sequence drops every enqueued
chunk instead of draining them through the transcriber. -/
theorem stop_sequence_cleanup_drops_enqueued_chunks :
    (App.run_events [App.Ev.stop, App.Ev.worker]
      ⟨true, ⟨true, some 0, some "out.wav", [[1], [2], [3]], [[1], [2], [3]], 0⟩,
        [], [], App.WorkerStatus.running⟩).dequeued = [] ∧
    (App.run_events [App.Ev.stop, App.Ev.worker]
      ⟨true, ⟨true, some 0, some "out.wav", [[1], [2], [3]], [[1], [2], [3]], 0⟩,
        [], [], App.WorkerStatus.running⟩).transcription = [] ∧
    (App.run_events [App.Ev.stop, App.Ev.worker]
      ⟨true, ⟨true, some 0, some "out.wav", [[1], [2], [3]], [[1], [2], [3]], 0⟩,
        [], [], App.WorkerStatus.running⟩).worker = App.WorkerStatus.finished := by
  refine ⟨rfl, rfl, rfl⟩

/-- Claim C3: the chunk dequeued with sequence number 1 is paired by
`get_audio_chunk` with time offset `1 * 5.0`, but no segment with
offset-corrected start/end is ever produced from it: `transcribe_chunk`
takes no time-offset parameter, so the worker's two-argument call raises
`TypeError` at binding, the worker aborts, and the transcription list stays
empty. -/
theorem worker_offset_call_raises_no_segments :
    (AudioRecorder.get_audio_chunk ⟨true, some 0, some "o.wav", [[9]], [[9]], 1⟩).1
      = some ([9], 1 * AudioRecorder.chunk_duration) ∧
    App.call_transcribe_chunk [9] (1 * AudioRecorder.chunk_duration) = .error () ∧
    (App.run_events [App.Ev.worker]
      ⟨true, ⟨true, some 0, some "o.wav", [[9]], [[9]], 1⟩,
        [], [], App.WorkerStatus.running⟩).transcription = [] ∧
    (App.run_events [App.Ev.worker]
      ⟨true, ⟨true, some 0, some "o.wav", [[9]], [[9]], 1⟩,
        [], [], App.WorkerStatus.running⟩).worker = App.WorkerStatus.aborted := by
  refine ⟨?_, rfl, rfl, rfl⟩
  show some ([9], (1 : ℚ) * 5) = some ([9], 1 * AudioRecorder.chunk_duration)
  norm_num [AudioRecorder.chunk_duration]

/-- Claim C6: with three chunks enqueued, the worker loop does not survive a
bad chunk — it aborts on the very first one: the transcriber call raises
(`TypeError` at argument binding, before `transcribe_chunk`'s internal
`except` can catch anything), `background_transcription`'s own `except`
terminates the loop, and chunks 2 and 3 are never dequeued, yielding no
segments for any chunk. -/
theorem worker_aborts_on_first_chunk_call :
    (App.run_events [App.Ev.worker, App.Ev.worker, App.Ev.worker]
      ⟨true, ⟨true, some 0, some "out.wav", [[1], [2], [3]], [[1], [2], [3]], 0⟩,
        [], [], App.WorkerStatus.running⟩).worker = App.WorkerStatus.aborted ∧
    (App.run_events [App.Ev.worker, App.Ev.worker, App.Ev.worker]
      ⟨true, ⟨true, some 0, some "out.wav", [[1], [2], [3]], [[1], [2], [3]], 0⟩,
        [], [], App.WorkerStatus.running⟩).dequeued = [[1]] ∧
    (App.run_events [App.Ev.worker, App.Ev.worker, App.Ev.worker]
      ⟨true, ⟨true, some 0, some "out.wav", [[1], [2], [3]], [[1], [2], [3]], 0⟩,
        [], [], App.WorkerStatus.running⟩).transcription = [] := by
  refine ⟨rfl, ?_, rfl⟩
  rfl

/-- Claim C9: while the transcriber's background model loading has not
completed (`is_loaded` still false — the loading worker sets it last), a
queued chunk is dequeued exactly once by `get_audio_chunk` — paired with its
`k·D` offset and removed from the queue, never to be re-enqueued — while
`transcribe_chunk` returns `None` for it without invoking the ASR pipeline,
whatever the oracles do; the durable sample accumulation (from which
`stop_recording` writes the audio file) is untouched by the dequeue, so the
chunk's audio stays in the persisted file while being absent from the
transcript. -/
theorem chunk_before_model_loaded_skipped_once
    (ts : Transcriber.State) (rs : AudioRecorder.State) (c : List ℚ)
    (rest : List (List ℚ))
    (h0 : ts.is_loaded = false) (h1 : rs.audio_queue = c :: rest) :
    (AudioRecorder.get_audio_chunk rs).1
      = some (c, rs.chunk_counter * AudioRecorder.chunk_duration) ∧
    (AudioRecorder.get_audio_chunk rs).2.audio_queue = rest ∧
    (AudioRecorder.get_audio_chunk rs).2.audio_data = rs.audio_data ∧
    (∀ (vadRest : List ℚ → Bool) (detectHall : String → Bool)
        (asr : List ℚ → Except Unit String),
      Transcriber.transcribe_chunk ts vadRest detectHall asr c = (none, false)) := by
  refine ⟨?_, ?_, ?_, ?_⟩
  · unfold AudioRecorder.get_audio_chunk
    rw [h1]
  · unfold AudioRecorder.get_audio_chunk
    rw [h1]
  · unfold AudioRecorder.get_audio_chunk
    rw [h1]
  · intro vadRest detectHall asr
    unfold Transcriber.transcribe_chunk
    rw [h0]
    simp

theorem chunk_before_model_loaded_skipped_once_witness :
    (⟨some (), false⟩ : Transcriber.State).is_loaded = false ∧
    (⟨true, some 0, some "o.wav", [[7]], [[7]], 2⟩ : AudioRecorder.State).audio_queue
      = [7] :: [] ∧
    ((AudioRecorder.get_audio_chunk ⟨true, some 0, some "o.wav", [[7]], [[7]], 2⟩).1
        = some ([7], 2 * AudioRecorder.chunk_duration) ∧
     (AudioRecorder.get_audio_chunk ⟨true, some 0, some "o.wav", [[7]], [[7]], 2⟩).2.audio_queue = [] ∧
     (AudioRecorder.get_audio_chunk ⟨true, some 0, some "o.wav", [[7]], [[7]], 2⟩).2.audio_data
        = (⟨true, some 0, some "o.wav", [[7]], [[7]], 2⟩ : AudioRecorder.State).audio_data ∧
     (∀ (vadRest : List ℚ → Bool) (detectHall : String → Bool)
         (asr : List ℚ → Except Unit String),
       Transcriber.transcribe_chunk ⟨some (), false⟩ vadRest detectHall asr [7]
         = (none, false))) :=
  ⟨rfl, rfl, chunk_before_model_loaded_skipped_once ⟨some (), false⟩
    ⟨true, some 0, some "o.wav", [[7]], [[7]], 2⟩ [7] [] rfl rfl⟩

/-- Claim C10 counterexample: `validate_meet_url` accepts
`"https://meet.google.com/abc-defg-hijx"`, a URL whose meeting code is
followed by a suffix with no `'?'`, which the claimed shape (code optionally
followed by `'?'` and a query suffix) rejects — so the claim's "exactly"
characterisation is false. -/
theorem validate_meet_url_accepts_suffix_without_query :
    Utils.validate_meet_url "https://meet.google.com/abc-defg-hijx" = true ∧
    Utils.claimed_meet_url_shape "https://meet.google.com/abc-defg-hijx" = false := by
  constructor <;> decide

/-- Claim C10 (amended): `validate_meet_url` returns `true` exactly for
strings of the form `http(s)://meet.google.com/` followed by three, four,
then three lowercase letters separated by hyphens and then any (possibly
empty) suffix containing no newline — the `'?'` is optional and independent
of the suffix; every other string (the empty string, other hosts, malformed
codes) yields `false`. -/
theorem validate_meet_url_amended_shape (url : String) :
    Utils.validate_meet_url url = Utils.amended_meet_url_shape url := by
  unfold Utils.validate_meet_url Utils.amended_meet_url_shape Utils.matchMeetRegex
  by_cases h : url = ""
  · simp [h]
  · simp only [h, if_neg]
    cases Utils.matchMeetPrefix url.toList with
    | none => rfl
    | some rest => exact Utils.optQThenDotStar_eq_dotStar rest
